import Mathlib

/-
Verification of the scaling/convergence logic of
plugins/module_utils/scale.py (KubernetesAnsibleScaleModule).

The module is embedded shallowly: the external API client is abstracted
into an environment record supplying the responses the code would read,
and the observable behaviour is an Outcome (exit_json / fail_json with the
returned attributes) together with an Effects trace recording which write
calls (full-object patch, scale-subresource patch) and which wait/poll
invocations happened.
-/

set_option maxHeartbeats 1000000

namespace KubeScale

/-- A fetched Kubernetes object, reduced to the fields the module reads:
kind, metadata.name, metadata.namespace, metadata.resourceVersion,
spec.parallelism and spec.replicas (absent attributes are `none`). -/
structure KObject where
  kind : String
  name : String
  ns : Option String
  resourceVersion : String
  specParallelism : Option Int
  specReplicas : Option Int
  deriving DecidableEq, Repr

/-- The minimal scale document built by `scale`:
`{kind, metadata: {name, namespace}, spec: {replicas}}`. -/
structure ScaleDoc where
  kind : String
  name : String
  ns : Option String
  replicas : Int
  deriving DecidableEq, Repr

/-- The return_attributes dictionary: `result = none` and `diff = none`
stand for the initial empty dicts; `duration` is present only when wait
was requested. -/
structure ReturnAttrs where
  changed : Bool
  result : Option KObject
  diff : Option (KObject × KObject)
  duration : Option Nat
  deriving DecidableEq, Repr

/-- How the run terminates: `exitJson` is a successful exit with the given
attributes, `failJson` is a fatal failure with a message and the attributes
passed along with it (if any). -/
inductive Outcome where
  | exitJson : ReturnAttrs → Outcome
  | failJson : String → Option ReturnAttrs → Outcome
  deriving DecidableEq, Repr

/-- The attributes carried by an outcome, when any. -/
def Outcome.attrs : Outcome → Option ReturnAttrs
  | Outcome.exitJson ra => some ra
  | Outcome.failJson _ ra => ra

/-- Trace of externally visible write/wait effects of a run. -/
structure Effects where
  fullPatches : List KObject
  scalePatches : List ScaleDoc
  waitInvoked : Bool
  deriving DecidableEq, Repr

/-- No write call and no wait happened. -/
def noEffects : Effects := ⟨[], [], false⟩

/-- Module parameters relevant to execute_module, plus the check_mode flag
of the surrounding Ansible module. -/
structure Params where
  kind : String
  replicas : Int
  current_replicas : Option Int
  resource_version : Option String
  wait : Bool
  wait_timeout : Nat
  check_mode : Bool

/-- The environment abstracting the API client: the result of the initial
get (`Except.error` means NotFoundError), the resolved resource handle's
kind, whether it has a scale subresource, the full-object patch response,
the two gets performed inside `scale`, whether the scale patch raises, and
the stream of objects observed by the wait poll (tick index to object). -/
structure Env where
  found : Except String KObject
  resourceKind : String
  patchResult : KObject → KObject
  hasScaleSub : Bool
  scaleGetBefore : KObject
  scalePatchError : Option String
  scaleGetAfter : KObject
  waitStates : Nat → KObject

/-- Modelled from the spec: the DiffObjects collaborator of section 6
(diff_objects lives in common.py, outside this file). It is a generic
structural comparator returning `(match, diff)` where `diff` pairs the
before and after documents. -/
def diff_objects (a b : KObject) : Bool × (KObject × KObject) :=
  (decide (a = b), (a, b))

/-- Modelled from the spec: the WaitForConvergence poll loop of section 4.1
(self.wait lives in common.py, outside this file). Each tick re-fetches the
object; if its observed replicas equal the desired count the loop stops as
converged, otherwise it sleeps 5 seconds, accumulates elapsed time, and
times out once elapsed reaches the timeout. The terminal triple always
carries the last observed object and the elapsed duration. -/
def waitPollAux (fetch : Nat → KObject) (desired : Int) (timeout : Nat)
    (tick elapsed : Nat) : Bool × KObject × Nat :=
  let obj := fetch tick
  if obj.specReplicas = some desired then (true, obj, elapsed)
  else if timeout ≤ elapsed + 5 then (false, obj, elapsed + 5)
  else waitPollAux fetch desired timeout (tick + 1) (elapsed + 5)
termination_by timeout - elapsed
decreasing_by simp_wf; omega

/-- Modelled from the spec: WaitForConvergence started at tick 0, elapsed 0. -/
def waitPoll (fetch : Nat → KObject) (desired : Int) (timeout : Nat) :
    Bool × KObject × Nat :=
  waitPollAux fetch desired timeout 0 0

/-- The observed count: `spec.parallelism` when self.kind is the string
job, else `spec.replicas` (when that attribute exists). -/
def observedCount (kind : String) (obj : KObject) : Option Int :=
  if kind = "job" then obj.specParallelism else obj.specReplicas

/-- The resource_version guard condition of execute_module: Python
truthiness of the parameter (non-None and non-empty) conjoined with
inequality against the observed resourceVersion. -/
def rvGuard (rv : Option String) (existing : KObject) : Bool :=
  match rv with
  | Option.none => false
  | Option.some s => decide (s ≠ "") && decide (s ≠ existing.resourceVersion)

/-- The current_replicas guard condition of execute_module: the parameter
is not None and differs from the observed count. -/
def crGuard (cr : Option Int) (existing_count : Int) : Bool :=
  match cr with
  | Option.none => false
  | Option.some c => decide (existing_count ≠ c)

/-- The method `scale` of KubernetesAnsibleScaleModule: fail when the
resource has no scale subresource; build the minimal scale document; get
the object; patch the scale subresource (any exception is fatal with a
wrapping message); re-fetch; compute `changed = not match` from the
structural diff of the before and after documents; when wait was
requested, poll for convergence, store the final object and duration, and
fail fatally with the gathered attributes on timeout. -/
def scaleFn (env : Env) (existing_object : KObject) (replicas : Int)
    (wait : Bool) (wait_time : Nat) : Outcome × Effects :=
  if env.hasScaleSub = false then
    (Outcome.failJson ("Cannot perform scale on resource of kind " ++ env.resourceKind)
      none, noEffects)
  else
    let scale_obj : ScaleDoc :=
      ⟨existing_object.kind, existing_object.name, existing_object.ns, replicas⟩
    let existing := env.scaleGetBefore
    match env.scalePatchError with
    | some exc =>
        (Outcome.failJson ("Scale request failed: " ++ exc) none,
         ⟨[], [scale_obj], false⟩)
    | none =>
        let k8s_obj := env.scaleGetAfter
        let md := diff_objects existing k8s_obj
        let result : ReturnAttrs :=
          ⟨!md.1, some k8s_obj, some md.2, none⟩
        if wait then
          let w := waitPoll env.waitStates replicas wait_time
          let result2 : ReturnAttrs :=
            { result with result := some w.2.1, duration := some w.2.2 }
          if w.1 then
            (Outcome.exitJson result2, ⟨[], [scale_obj], true⟩)
          else
            (Outcome.failJson "Resource scaling timed out" (some result2),
             ⟨[], [scale_obj], true⟩)
        else
          (Outcome.exitJson result, ⟨[], [scale_obj], false⟩)

/-- The write branch of execute_module once a change is needed and check
mode is off: for kind job, set spec.parallelism on the fetched object and
patch the full object; otherwise delegate to `scale`. -/
def applyWrite (p : Params) (env : Env) (existing : KObject) : Outcome × Effects :=
  if p.kind = "job" then
    let patched := { existing with specParallelism := some p.replicas }
    (Outcome.exitJson
      ⟨true, some (env.patchResult patched), none, if p.wait then some 0 else none⟩,
     ⟨[patched], [], false⟩)
  else
    scaleFn env existing p.replicas p.wait p.wait_timeout

/-- The attributes of every skip exit of execute_module: changed=false,
result = the fetched object, empty diff, duration 0 when wait requested. -/
def skipAttrs (p : Params) (existing : KObject) : ReturnAttrs :=
  ⟨false, some existing, none, if p.wait then some 0 else none⟩

/-- The method `execute_module` of KubernetesAnsibleScaleModule: fetch the
object (NotFoundError is fatal); source the observed count per kind and
fail fatally when it is absent; run the resource_version guard, the
current_replicas guard, and the equal-count check in that order, each
exiting changed=false; otherwise set changed=true and, unless in check
mode, perform the write. -/
def execute_module (p : Params) (env : Env) : Outcome × Effects :=
  match env.found with
  | Except.error exc =>
      (Outcome.failJson ("Failed to retrieve requested object: " ++ exc) none, noEffects)
  | Except.ok existing =>
      match observedCount p.kind existing with
      | none =>
          (Outcome.failJson "Failed to retrieve the available count for the requested object."
            none, noEffects)
      | some existing_count =>
          if rvGuard p.resource_version existing then
            (Outcome.exitJson (skipAttrs p existing), noEffects)
          else if crGuard p.current_replicas existing_count then
            (Outcome.exitJson (skipAttrs p existing), noEffects)
          else if existing_count ≠ p.replicas then
            if p.check_mode then
              (Outcome.exitJson { skipAttrs p existing with changed := true }, noEffects)
            else
              applyWrite p env existing
          else
            (Outcome.exitJson (skipAttrs p existing), noEffects)

/-! Concrete sample inputs used by witnesses and counterexamples. -/

/-- A fetched Deployment with 2 replicas at resourceVersion 5. -/
def oDep : KObject := ⟨"Deployment", "web", some "default", "5", none, some 2⟩

/-- The same Deployment observed with 4 replicas. -/
def oDep4 : KObject := { oDep with specReplicas := some 4 }

/-- A fetched Job with parallelism 1. -/
def oJob : KObject := ⟨"Job", "batch", some "default", "7", some 1, none⟩

/-- A fetched object carrying neither spec.parallelism nor spec.replicas. -/
def oNoCount : KObject := ⟨"Deployment", "web", some "default", "9", none, none⟩

/-- An environment where the get finds `found`, the resource has a scale
subresource, the scale patch succeeds, and the gets inside `scale` return
`before` then `after` (the wait poll also observes `after` forever). -/
def envOf (found before after : KObject) : Env :=
  ⟨Except.ok found, "Deployment", fun o => o, true, before, none, after, fun _ => after⟩

/-- Baseline parameters: scale a deployment to 4 replicas, no guards, no
wait, no check mode. -/
def baseParams : Params := ⟨"deployment", 4, none, none, false, 20, false⟩

/-! Unfolding and convergence lemmas for the wait poll. -/

/-- One-step unfolding of the well-founded wait poll recursion. -/
theorem waitPollAux_unfold (fetch : Nat → KObject) (desired : Int)
    (timeout tick elapsed : Nat) :
    waitPollAux fetch desired timeout tick elapsed =
      (if (fetch tick).specReplicas = some desired then (true, fetch tick, elapsed)
       else if timeout ≤ elapsed + 5 then (false, fetch tick, elapsed + 5)
       else waitPollAux fetch desired timeout (tick + 1) (elapsed + 5)) := by
  rw [waitPollAux]

/-- When the wait poll ends unconverged, the object it hands back does not
have the desired replica count. -/
theorem waitPollAux_false_not_conv (fetch : Nat → KObject) (desired : Int) :
    ∀ (n timeout tick elapsed : Nat), timeout - elapsed ≤ n →
    (waitPollAux fetch desired timeout tick elapsed).1 = false →
    ((waitPollAux fetch desired timeout tick elapsed).2.1).specReplicas ≠ some desired := by
  intro n
  induction n with
  | zero =>
    intro timeout tick elapsed hle
    rw [waitPollAux_unfold]
    by_cases hcv : (fetch tick).specReplicas = some desired
    · simp [hcv]
    · have hto : timeout ≤ elapsed + 5 := by omega
      simp [hcv, hto]
  | succ n ih =>
    intro timeout tick elapsed hle
    rw [waitPollAux_unfold]
    by_cases hcv : (fetch tick).specReplicas = some desired
    · simp [hcv]
    · by_cases hto : timeout ≤ elapsed + 5
      · simp [hcv, hto]
      · simp only [hcv, hto, if_neg, if_false]
        exact fun h => ih timeout (tick + 1) (elapsed + 5) (by omega) h

/-- The top-level wait poll, when it reports failure, hands back an object
whose replica count is not the desired one. -/
theorem waitPoll_false_not_conv (fetch : Nat → KObject) (desired : Int) (timeout : Nat)
    (h : (waitPoll fetch desired timeout).1 = false) :
    ((waitPoll fetch desired timeout).2.1).specReplicas ≠ some desired :=
  waitPollAux_false_not_conv fetch desired (timeout - 0) timeout 0 0 (by omega) h

/-- C1: execute_module applies its guards in this exact short-circuit
order on every run that reaches them (object found, observed count
present): first a set-and-mismatched resource_version exits as a Skip with
changed=false and no effects; second, with the first guard off, a
set-and-mismatched current_replicas exits the same way; third, with both
guards off, an observed count equal to the desired replicas exits the same
way; only otherwise (outside check mode) is the write branch performed. -/
theorem C1_guard_order (p : Params) (env : Env) (existing : KObject) (c : Int)
    (hf : env.found = Except.ok existing)
    (hc : observedCount p.kind existing = some c) :
    (rvGuard p.resource_version existing = true →
      execute_module p env = (Outcome.exitJson (skipAttrs p existing), noEffects)) ∧
    (rvGuard p.resource_version existing = false →
      crGuard p.current_replicas c = true →
      execute_module p env = (Outcome.exitJson (skipAttrs p existing), noEffects)) ∧
    (rvGuard p.resource_version existing = false →
      crGuard p.current_replicas c = false → c = p.replicas →
      execute_module p env = (Outcome.exitJson (skipAttrs p existing), noEffects)) ∧
    (rvGuard p.resource_version existing = false →
      crGuard p.current_replicas c = false → c ≠ p.replicas → p.check_mode = false →
      execute_module p env = applyWrite p env existing) := by
  unfold execute_module
  rw [hf]
  refine ⟨?_, ?_, ?_, ?_⟩
  · intro h1
    simp [hc, h1]
  · intro h1 h2
    simp [hc, h1, h2]
  · intro h1 h2 h3
    simp [hc, h1, h2, h3]
  · intro h1 h2 h3 h4
    simp [hc, h1, h2, h3, h4]

/-- Witness for C1: on a concrete run with both guards off, an observed
count of 2 and a desired count of 4, the write branch is reached. -/
theorem C1_guard_order_witness :
    execute_module baseParams (envOf oDep oDep oDep4) =
      applyWrite baseParams (envOf oDep oDep oDep4) oDep :=
  (C1_guard_order baseParams (envOf oDep oDep oDep4) oDep 2 rfl rfl).2.2.2
    rfl rfl (by decide) rfl

/-- C2 counterexample: a run whose scale patch leaves the re-fetched
object identical to the pre-patch object returns changed=false even though
a scale-subresource patch was issued, refuting the claim that changed=false
implies no patch call. Here the deployment has 2 replicas, 4 are desired,
the patch is issued, and both gets inside scale return the same object. -/
theorem C2_counterexample :
    (execute_module baseParams (envOf oDep oDep oDep)).1 =
      Outcome.exitJson ⟨false, some oDep, some (oDep, oDep), none⟩ ∧
    (execute_module baseParams (envOf oDep oDep oDep)).2.scalePatches =
      [⟨"Deployment", "web", some "default", 4⟩] :=
  ⟨rfl, rfl⟩

/-- C2 amended: whenever the observed count equals the desired count the
run exits with changed=false and no patch call and no wait; changed=false
does not in general imply no patch was issued, because a scale patch whose
re-fetched object matches the pre-patch object also reports changed=false. -/
theorem C2_equal_count_no_patch (p : Params) (env : Env) (existing : KObject)
    (hf : env.found = Except.ok existing)
    (hc : observedCount p.kind existing = some p.replicas) :
    execute_module p env = (Outcome.exitJson (skipAttrs p existing), noEffects) := by
  unfold execute_module
  rw [hf]
  by_cases h1 : rvGuard p.resource_version existing = true
  · simp [hc, h1]
  · by_cases h2 : crGuard p.current_replicas p.replicas = true
    · simp [hc, h1, h2]
    · simp [hc, h1, h2]

/-- Witness for the amended C2: a deployment already at 2 replicas with a
desired count of 2 exits changed=false with no effects. -/
theorem C2_equal_count_no_patch_witness :
    execute_module { baseParams with replicas := 2 } (envOf oDep oDep oDep) =
      (Outcome.exitJson (skipAttrs { baseParams with replicas := 2 } oDep), noEffects) :=
  C2_equal_count_no_patch { baseParams with replicas := 2 } (envOf oDep oDep oDep) oDep
    rfl rfl

/-- C3 counterexample: with expectedResourceVersion set to 10 against an
observed resourceVersion 9 but an absent replica count, the run does not
exit as a Skip: it fails fatally on the missing count before the
resource_version guard is reached. -/
theorem C3_counterexample :
    rvGuard (some "10") oNoCount = true ∧
    execute_module { baseParams with resource_version := some "10" }
        (envOf oNoCount oNoCount oNoCount) =
      (Outcome.failJson "Failed to retrieve the available count for the requested object."
        none, noEffects) :=
  ⟨by decide, rfl⟩

/-- C3 amended: for every request with expectedResourceVersion set to a
non-empty string different from the observed resourceVersion, provided the
observed count is present, the run exits as a Skip (changed=false, no
patch, no wait) regardless of the observed or desired replica counts; when
the count is absent the run instead fails fatally before the guard. -/
theorem C3_rv_guard_skips (p : Params) (env : Env) (existing : KObject) (c : Int)
    (rv : String)
    (hf : env.found = Except.ok existing)
    (hc : observedCount p.kind existing = some c)
    (hrv : p.resource_version = some rv)
    (hne : rv ≠ "")
    (hmm : rv ≠ existing.resourceVersion) :
    execute_module p env = (Outcome.exitJson (skipAttrs p existing), noEffects) := by
  have hg : rvGuard p.resource_version existing = true := by
    rw [hrv]
    simp [rvGuard, hne, hmm]
  unfold execute_module
  rw [hf]
  simp [hc, hg]

/-- Witness for the amended C3: resource_version 10 against observed 5
with an observed count present exits as a Skip. -/
theorem C3_rv_guard_skips_witness :
    execute_module { baseParams with resource_version := some "10" }
        (envOf oDep oDep oDep4) =
      (Outcome.exitJson
        (skipAttrs { baseParams with resource_version := some "10" } oDep), noEffects) :=
  C3_rv_guard_skips { baseParams with resource_version := some "10" }
    (envOf oDep oDep oDep4) oDep 2 "10" rfl rfl rfl (by decide) (by decide)

/-- C4: on every run with kind job where a change is applied (guards off,
count differs, check mode off), the change is a single full-object patch
setting spec.parallelism to the desired count; the scale subresource is
never called and the wait/poll loop is never invoked, for any value of the
wait parameter. -/
theorem C4_job_full_patch (p : Params) (env : Env) (existing : KObject) (c : Int)
    (hf : env.found = Except.ok existing)
    (hk : p.kind = "job")
    (hc : observedCount p.kind existing = some c)
    (h1 : rvGuard p.resource_version existing = false)
    (h2 : crGuard p.current_replicas c = false)
    (h3 : c ≠ p.replicas)
    (h4 : p.check_mode = false) :
    execute_module p env =
      (Outcome.exitJson
        ⟨true, some (env.patchResult { existing with specParallelism := some p.replicas }),
         none, if p.wait then some 0 else none⟩,
       ⟨[{ existing with specParallelism := some p.replicas }], [], false⟩) := by
  unfold execute_module
  rw [hf]
  rw [hk] at hc
  simp [hc, h1, h2, h3, h4, applyWrite, hk]

/-- Witness for C4: a Job at parallelism 1 scaled to 4 with wait=true is
patched on the full object with parallelism 4, with no scale-subresource
call and no wait invocation. -/
theorem C4_job_full_patch_witness :
    execute_module { baseParams with kind := "job", wait := true }
        (envOf oJob oJob oJob) =
      (Outcome.exitJson
        ⟨true, some { oJob with specParallelism := some 4 }, none, some 0⟩,
       ⟨[{ oJob with specParallelism := some 4 }], [], false⟩) :=
  C4_job_full_patch { baseParams with kind := "job", wait := true }
    (envOf oJob oJob oJob) oJob 1 rfl rfl rfl rfl rfl (by decide) rfl

/-- C5: the observed count is sourced from spec.parallelism for kind job
and from spec.replicas for every other kind, and when the applicable field
is absent the run fails fatally with the available-count message while no
guard has exited and no patch or wait effect has happened. -/
theorem C5_observed_count_sourcing :
    (∀ o : KObject, observedCount "job" o = o.specParallelism) ∧
    (∀ (k : String) (o : KObject), k ≠ "job" → observedCount k o = o.specReplicas) ∧
    (∀ (p : Params) (env : Env) (existing : KObject),
      env.found = Except.ok existing →
      observedCount p.kind existing = none →
      execute_module p env =
        (Outcome.failJson "Failed to retrieve the available count for the requested object."
          none, noEffects)) := by
  refine ⟨fun o => rfl, fun k o hk => by simp [observedCount, hk], ?_⟩
  intro p env existing hf hc
  unfold execute_module
  rw [hf]
  simp [hc]

/-- Witness for C5: a non-job kind sources spec.replicas, and a run whose
object carries no count fails fatally with the available-count message. -/
theorem C5_observed_count_sourcing_witness :
    observedCount "deployment" oDep = oDep.specReplicas ∧
    execute_module baseParams (envOf oNoCount oNoCount oNoCount) =
      (Outcome.failJson "Failed to retrieve the available count for the requested object."
        none, noEffects) :=
  ⟨C5_observed_count_sourcing.2.1 "deployment" oDep (by decide),
   C5_observed_count_sourcing.2.2 baseParams (envOf oNoCount oNoCount oNoCount) oNoCount
     rfl rfl⟩

/-- C6: for every run of scale, a missing scale subresource is a fatal
failure naming the resource kind with no patch issued; when the
subresource exists the submitted document is exactly the minimal scale
document built from the object kind, name, namespace and desired
replicas; and an error raised during the scale patch aborts fatally with a
message wrapping the underlying error. -/
theorem C6_scale_doc_and_failures :
    (∀ (env : Env) (eo : KObject) (r : Int) (w : Bool) (t : Nat),
      env.hasScaleSub = false →
      scaleFn env eo r w t =
        (Outcome.failJson ("Cannot perform scale on resource of kind " ++ env.resourceKind)
          none, noEffects)) ∧
    (∀ (env : Env) (eo : KObject) (r : Int) (w : Bool) (t : Nat),
      env.hasScaleSub = true →
      (scaleFn env eo r w t).2.scalePatches = [⟨eo.kind, eo.name, eo.ns, r⟩]) ∧
    (∀ (env : Env) (eo : KObject) (r : Int) (w : Bool) (t : Nat) (exc : String),
      env.hasScaleSub = true → env.scalePatchError = some exc →
      scaleFn env eo r w t =
        (Outcome.failJson ("Scale request failed: " ++ exc) none,
         ⟨[], [⟨eo.kind, eo.name, eo.ns, r⟩], false⟩)) := by
  refine ⟨?_, ?_, ?_⟩
  · intro env eo r w t hs
    unfold scaleFn
    simp [hs]
  · intro env eo r w t hs
    unfold scaleFn
    rcases hp : env.scalePatchError with _ | exc
    · rcases w with _ | _
      · simp [hs, hp]
      · by_cases hw : (waitPoll env.waitStates r t).1 = true
        · simp [hs, hp, hw]
        · simp [hs, hp, hw]
    · simp [hs, hp]
  · intro env eo r w t exc hs hp
    unfold scaleFn
    simp [hs, hp]

/-- Witness for C6: with no scale subresource the run fails naming the
resource kind; with one, the concrete patched document has the minimal
shape; a raising patch fails with the wrapped message. -/
theorem C6_scale_doc_and_failures_witness :
    scaleFn { envOf oDep oDep oDep4 with hasScaleSub := false } oDep 4 false 20 =
      (Outcome.failJson "Cannot perform scale on resource of kind Deployment" none,
       noEffects) ∧
    (scaleFn (envOf oDep oDep oDep4) oDep 4 false 20).2.scalePatches =
      [⟨"Deployment", "web", some "default", 4⟩] ∧
    scaleFn { envOf oDep oDep oDep4 with scalePatchError := some "boom" } oDep 4 false 20 =
      (Outcome.failJson "Scale request failed: boom" none,
       ⟨[], [⟨"Deployment", "web", some "default", 4⟩], false⟩) :=
  ⟨C6_scale_doc_and_failures.1 { envOf oDep oDep oDep4 with hasScaleSub := false }
     oDep 4 false 20 rfl,
   C6_scale_doc_and_failures.2.1 (envOf oDep oDep oDep4) oDep 4 false 20 rfl,
   C6_scale_doc_and_failures.2.2 { envOf oDep oDep oDep4 with scalePatchError := some "boom" }
     oDep 4 false 20 "boom" rfl rfl⟩

/-- The diff component of diff_objects is the before/after pair. -/
theorem diff_objects_snd (a b : KObject) : (diff_objects a b).2 = (a, b) := rfl

/-- C7: after a successful scale patch (subresource present, no patch
error), whatever attributes the run hands back carry
changed = not match, where match comes from the structural diff of the
before and after documents; changed is true exactly when the two fetched
documents differ, so it reflects actual drift even when the patch had no
effect. -/
theorem C7_changed_from_diff (env : Env) (eo : KObject) (r : Int) (w : Bool) (t : Nat)
    (ra : ReturnAttrs)
    (hs : env.hasScaleSub = true)
    (hp : env.scalePatchError = none)
    (ha : (scaleFn env eo r w t).1.attrs = some ra) :
    ra.changed = !(diff_objects env.scaleGetBefore env.scaleGetAfter).1 ∧
    (ra.changed = true ↔ env.scaleGetBefore ≠ env.scaleGetAfter) := by
  cases w with
  | false =>
    have hv : (scaleFn env eo r false t).1.attrs =
        some ⟨!(diff_objects env.scaleGetBefore env.scaleGetAfter).1,
              some env.scaleGetAfter,
              some (env.scaleGetBefore, env.scaleGetAfter), none⟩ := by
      unfold scaleFn
      simp [hs, hp, Outcome.attrs, diff_objects_snd]
    rw [hv] at ha
    have he := Option.some.inj ha
    rw [← he]
    exact ⟨rfl, by simp [diff_objects]⟩
  | true =>
    by_cases hw : (waitPoll env.waitStates r t).1 = true
    · have hv : (scaleFn env eo r true t).1.attrs =
          some ⟨!(diff_objects env.scaleGetBefore env.scaleGetAfter).1,
                some (waitPoll env.waitStates r t).2.1,
                some (env.scaleGetBefore, env.scaleGetAfter),
                some (waitPoll env.waitStates r t).2.2⟩ := by
        unfold scaleFn
        simp [hs, hp, hw, Outcome.attrs, diff_objects_snd]
      rw [hv] at ha
      have he := Option.some.inj ha
      rw [← he]
      exact ⟨rfl, by simp [diff_objects]⟩
    · have hv : (scaleFn env eo r true t).1.attrs =
          some ⟨!(diff_objects env.scaleGetBefore env.scaleGetAfter).1,
                some (waitPoll env.waitStates r t).2.1,
                some (env.scaleGetBefore, env.scaleGetAfter),
                some (waitPoll env.waitStates r t).2.2⟩ := by
        unfold scaleFn
        simp [hs, hp, hw, Outcome.attrs, diff_objects_snd]
      rw [hv] at ha
      have he := Option.some.inj ha
      rw [← he]
      exact ⟨rfl, by simp [diff_objects]⟩

/-- Witness for C7: on a run where the patch does take effect (before has
2 replicas, after has 4), changed comes back true. -/
theorem C7_changed_from_diff_witness :
    (⟨true, some oDep4, some (oDep, oDep4), none⟩ : ReturnAttrs).changed =
      !(diff_objects oDep oDep4).1 ∧
    ((⟨true, some oDep4, some (oDep, oDep4), none⟩ : ReturnAttrs).changed = true ↔
      oDep ≠ oDep4) :=
  C7_changed_from_diff (envOf oDep oDep oDep4) oDep 4 false 20
    ⟨true, some oDep4, some (oDep, oDep4), none⟩ rfl rfl (by decide)

/-- C8: on every non-Job run with wait=true whose convergence poll ends
unconverged, execute_module terminates as a fatal failure (never a
successful exit) whose message is the timeout message and whose carried
attributes hold the last-observed object, the before/after diff and the
elapsed duration; moreover the last-observed object indeed does not carry
the desired replica count. -/
theorem C8_timeout_fatal (p : Params) (env : Env) (existing : KObject) (c : Int)
    (hf : env.found = Except.ok existing)
    (hc : observedCount p.kind existing = some c)
    (h1 : rvGuard p.resource_version existing = false)
    (h2 : crGuard p.current_replicas c = false)
    (h3 : c ≠ p.replicas)
    (h4 : p.check_mode = false)
    (hk : ¬ p.kind = "job")
    (hw : p.wait = true)
    (hs : env.hasScaleSub = true)
    (hp : env.scalePatchError = none)
    (ht : (waitPoll env.waitStates p.replicas p.wait_timeout).1 = false) :
    execute_module p env =
      (Outcome.failJson "Resource scaling timed out"
        (some ⟨!(diff_objects env.scaleGetBefore env.scaleGetAfter).1,
               some (waitPoll env.waitStates p.replicas p.wait_timeout).2.1,
               some (env.scaleGetBefore, env.scaleGetAfter),
               some (waitPoll env.waitStates p.replicas p.wait_timeout).2.2⟩),
       ⟨[], [⟨existing.kind, existing.name, existing.ns, p.replicas⟩], true⟩) ∧
    ((waitPoll env.waitStates p.replicas p.wait_timeout).2.1).specReplicas ≠
      some p.replicas := by
  constructor
  · unfold execute_module
    rw [hf]
    simp [hc, h1, h2, h3, h4, applyWrite, hk, scaleFn, hs, hp, hw, ht, diff_objects_snd]
  · exact waitPoll_false_not_conv env.waitStates p.replicas p.wait_timeout ht

/-- Concrete evaluation of the wait poll: an object stuck at 2 replicas
never reaches 4, so a 20 second budget times out after four 5 second
ticks with the stuck object in hand. -/
theorem waitPoll_oDep_eval : waitPoll (fun _ => oDep) 4 20 = (false, oDep, 20) := by
  unfold waitPoll
  rw [waitPollAux_unfold]
  norm_num [oDep]
  rw [waitPollAux_unfold]
  norm_num
  rw [waitPollAux_unfold]
  norm_num
  rw [waitPollAux_unfold]
  norm_num

/-- Witness for C8: a deployment stuck at 2 replicas with 4 desired and a
20 second wait budget fails fatally with the timeout message, carrying the
stuck object, the before/after diff, and the 20 second duration. -/
theorem C8_timeout_fatal_witness :
    execute_module { baseParams with wait := true } (envOf oDep oDep oDep) =
      (Outcome.failJson "Resource scaling timed out"
        (some ⟨false, some oDep, some (oDep, oDep), some 20⟩),
       ⟨[], [⟨"Deployment", "web", some "default", 4⟩], true⟩) ∧
    oDep.specReplicas ≠ some 4 := by
  have h := C8_timeout_fatal { baseParams with wait := true } (envOf oDep oDep oDep)
    oDep 2 rfl rfl rfl rfl (by decide) rfl (by decide) rfl rfl rfl
    (by show (waitPoll (fun _ => oDep) 4 20).1 = false
        rw [waitPoll_oDep_eval])
  refine ⟨?_, by decide⟩
  rw [h.1]
  show (Outcome.failJson "Resource scaling timed out"
      (some ⟨!(diff_objects oDep oDep).1,
             some (waitPoll (fun _ => oDep) 4 20).2.1,
             some (oDep, oDep),
             some (waitPoll (fun _ => oDep) 4 20).2.2⟩),
    (⟨[], [⟨"Deployment", "web", some "default", 4⟩], true⟩ : Effects)) = _
  rw [waitPoll_oDep_eval]
  decide

/-- C9: in check mode, a run where the observed count differs from the
desired count and all guards pass reports changed=true while issuing no
patch and no wait, and its result is the pre-existing object exactly as
fetched. -/
theorem C9_check_mode_reports_only (p : Params) (env : Env) (existing : KObject) (c : Int)
    (hf : env.found = Except.ok existing)
    (hc : observedCount p.kind existing = some c)
    (h1 : rvGuard p.resource_version existing = false)
    (h2 : crGuard p.current_replicas c = false)
    (h3 : c ≠ p.replicas)
    (h4 : p.check_mode = true) :
    execute_module p env =
      (Outcome.exitJson ⟨true, some existing, none, if p.wait then some 0 else none⟩,
       noEffects) := by
  unfold execute_module
  rw [hf]
  simp [hc, h1, h2, h3, h4, skipAttrs]

/-- Witness for C9: a concrete check-mode run on the deployment at 2
replicas with 4 desired exits changed=true with no effects and the fetched
object as result. -/
theorem C9_check_mode_reports_only_witness :
    execute_module { baseParams with check_mode := true } (envOf oDep oDep oDep4) =
      (Outcome.exitJson ⟨true, some oDep, none, none⟩, noEffects) :=
  C9_check_mode_reports_only { baseParams with check_mode := true }
    (envOf oDep oDep oDep4) oDep 2 rfl rfl rfl rfl (by decide) rfl

/-- C10: the resource_version guard tests Python truthiness rather than
presence: an empty-string resource_version never makes the guard fire, and
such a run proceeds past the guard to the write branch even when the
observed resourceVersion differs; by contrast current_replicas uses an
is-not-None test, so current_replicas=0 does act as a guard and skips the
run whenever the observed count is nonzero. -/
theorem C10_truthiness :
    (∀ existing : KObject, rvGuard (some "") existing = false) ∧
    (∀ (p : Params) (env : Env) (existing : KObject) (c : Int),
      env.found = Except.ok existing →
      observedCount p.kind existing = some c →
      p.resource_version = some "" →
      crGuard p.current_replicas c = false →
      c ≠ p.replicas → p.check_mode = false →
      execute_module p env = applyWrite p env existing) ∧
    (∀ (p : Params) (env : Env) (existing : KObject) (c : Int),
      env.found = Except.ok existing →
      observedCount p.kind existing = some c →
      p.current_replicas = some 0 →
      c ≠ 0 →
      rvGuard p.resource_version existing = false →
      execute_module p env = (Outcome.exitJson (skipAttrs p existing), noEffects)) := by
  refine ⟨fun existing => by simp [rvGuard], ?_, ?_⟩
  · intro p env existing c hf hc hrv h2 h3 h4
    have h1 : rvGuard p.resource_version existing = false := by
      rw [hrv]; simp [rvGuard]
    unfold execute_module
    rw [hf]
    simp [hc, h1, h2, h3, h4]
  · intro p env existing c hf hc hcr hc0 h1
    have h2 : crGuard p.current_replicas c = true := by
      rw [hcr]; simp [crGuard, hc0]
    unfold execute_module
    rw [hf]
    simp [hc, h1, h2]

/-- Witness for C10: a run with resource_version set to the empty string
against observed resourceVersion 5 reaches the write branch, and a run
with current_replicas=0 against an observed count of 2 exits as a Skip. -/
theorem C10_truthiness_witness :
    rvGuard (some "") oDep = false ∧
    execute_module { baseParams with resource_version := some "" } (envOf oDep oDep oDep4) =
      applyWrite { baseParams with resource_version := some "" } (envOf oDep oDep oDep4)
        oDep ∧
    execute_module { baseParams with current_replicas := some 0 } (envOf oDep oDep oDep4) =
      (Outcome.exitJson (skipAttrs { baseParams with current_replicas := some 0 } oDep),
       noEffects) :=
  ⟨C10_truthiness.1 oDep,
   C10_truthiness.2.1 { baseParams with resource_version := some "" }
     (envOf oDep oDep oDep4) oDep 2 rfl rfl rfl rfl (by decide) rfl,
   C10_truthiness.2.2 { baseParams with current_replicas := some 0 }
     (envOf oDep oDep oDep4) oDep 2 rfl rfl rfl (by decide) rfl⟩

end KubeScale
